import Mathlib

/-!
Shallow embedding of django-cached-field (src/django_cached_field/__init__.py).

A cached field keeps, per record, three storage slots: the cached value,
a boolean recalculation-needed flag, and an optional expiration timestamp.
Each record has an in-memory instance view and a database row; operations
mutate both and issue targeted UPDATE calls.  We model time as an integer
timestamp, Django settings as a record of optionally-present attributes
(Python getattr on an absent attribute raises AttributeError), and Python
truthiness of timedelta/relativedelta/datetime values explicitly.
-/

namespace CachedField

/-- A Python exception surfaced by the embedded code: AttributeError from
getattr on a missing Django setting, or an exception raised by the
user-supplied calculation method. -/
inductive Err where
  | attrError
  | calcError
deriving DecidableEq

/-- An expiration policy value: either an absolute timestamp (datetime) or a
relative offset (timedelta / relativedelta). -/
inductive Expiration where
  | absolute (t : Int)
  | relative (d : Int)
deriving DecidableEq

/-- Python truthiness of an Expiration: a datetime is always truthy, a
timedelta/relativedelta is truthy iff nonzero. -/
def Expiration.truthy : Expiration → Bool
  | .absolute _ => true
  | .relative d => d != 0

/-- Truthiness of an optional Expiration (None is falsy). -/
def optExpTruthy : Option Expiration → Bool
  | none => false
  | some e => e.truthy

/-- Resolution of an optional expiration to an absolute optional timestamp,
mirroring: if expiration is not None and not isinstance(expiration, datetime):
expiration = now() + expiration. -/
def resolveExpiration (tnow : Int) : Option Expiration → Option Int
  | none => none
  | some (.absolute t) => some t
  | some (.relative d) => some (tnow + d)

/-- Django settings visible to the library.  Each field is None when the
attribute is absent from the settings module (getattr raises), and
some v when present with value v (which may itself be None). -/
structure Settings where
  default_expiration : Option (Option Expiration)
  eager_recalculation : Option Bool
  celery_async_kwargs : Option (Option Unit)
deriving DecidableEq

/-- Python expression expiration or settings.CACHED_FIELD_DEFAULT_EXPIRATION:
keeps the argument when truthy, otherwise reads the setting, raising
AttributeError when the setting is absent. -/
def pyOrDefaultExpiration (x : Option Expiration) (st : Settings) :
    Except Err (Option Expiration) :=
  if optExpTruthy x then Except.ok x
  else
    match st.default_expiration with
    | none => Except.error Err.attrError
    | some d => Except.ok d

/-- Per-attribute configuration relevant to the staleness engine (the field
object).  Naming conventions and index hints have no behavioral effect here. -/
structure Field where
  temporal_triggers : Bool
deriving DecidableEq

/-- The three storage slots of one cached attribute on one record. -/
structure Slots (α : Type) where
  cached : α
  flag : Bool
  exp : Option Int
deriving DecidableEq

/-- A record instance: the in-memory view (attribute access on self) and the
database row (queryset filter/update by pk). -/
structure RecordState (α : Type) where
  mem : Slots α
  db : Slots α
deriving DecidableEq

/-- A kwargs dictionary for a targeted UPDATE: each slot is present or
absent.  The exp entry, when present, carries a nullable timestamp. -/
structure Kwargs (α : Type) where
  cached : Option α
  flag : Option Bool
  exp : Option (Option Int)
deriving DecidableEq

/-- The empty kwargs dictionary. -/
def emptyKwargs {α : Type} : Kwargs α := ⟨none, none, none⟩

/-- Kwargs setting only the recalculation-needed flag. -/
def kwFlag {α : Type} (b : Bool) : Kwargs α := ⟨none, some b, none⟩

/-- Kwargs setting only the expiration slot. -/
def kwExp {α : Type} (t : Option Int) : Kwargs α := ⟨none, none, some t⟩

/-- Applying a kwargs dictionary to a row, as queryset.update does. -/
def Slots.applyKwargs {α : Type} (s : Slots α) (kw : Kwargs α) : Slots α :=
  ⟨kw.cached.getD s.cached, kw.flag.getD s.flag, kw.exp.getD s.exp⟩

/-- Observable side effects of one operation, in order: a database UPDATE
call with its kwargs, an invocation of the calculation method, or a
celery async dispatch (offload_cache_recalculation.delay). -/
inductive Event (α : Type) where
  | dbUpdate (kw : Kwargs α)
  | calcCall
  | asyncDispatch
deriving DecidableEq

/-- The database UPDATE calls of an event trace, in order. -/
def dbUpdates {α : Type} (evs : List (Event α)) : List (Kwargs α) :=
  evs.filterMap fun e =>
    match e with
    | .dbUpdate kw => some kw
    | _ => none

/-- Number of calculation-method invocations in a trace. -/
def countCalc {α : Type} (evs : List (Event α)) : Nat :=
  evs.countP fun e =>
    match e with
    | .calcCall => true
    | _ => false

/-- Number of async dispatches in a trace. -/
def countAsync {α : Type} (evs : List (Event α)) : Nat :=
  evs.countP fun e =>
    match e with
    | .asyncDispatch => true
    | _ => false

/-- Result of one operation: the returned value (or the propagated
exception), the record state at return or raise time, and the event trace
up to that point. -/
structure OpResult (α : Type) (ρ : Type) where
  ret : Except Err ρ
  state : RecordState α
  events : List (Event α)

/-- Staleness test of the expiration slot inside recalculation,
mirroring: if not expires or expires < now().  A datetime is always
truthy, so not expires means the slot is null. -/
def expStale (tnow : Int) : Option Int → Bool
  | none => true
  | some t => decide (t < tnow)

/-- Expiration test on the read path, mirroring:
expiration is not None and expiration < now(). -/
def expPast (tnow : Int) : Option Int → Bool
  | none => false
  | some t => decide (t < tnow)

/-- Resolution of the and_recalculate argument in _flag_FIELD_as_stale:
an explicit argument wins; otherwise settings.CACHED_FIELD_EAGER_RECALCULATION
when that attribute is present (guarded by hasattr, so no raise); otherwise
True. -/
def resolveAndRecalculate (arg : Option Bool) (st : Settings) : Bool :=
  match arg with
  | some b => b
  | none =>
    match st.eager_recalculation with
    | some b => b
    | none => true

/-- Embedding of _flag_FIELD_as_stale(self, field, and_recalculate, commit).
Reads the flag fresh from the database row, builds an empty kwargs when it
is already true, otherwise sets the in-memory flag and a one-entry kwargs;
when commit is true it issues the UPDATE and, when and_recalculate resolves
to true, dispatches the async recalculation. -/
def flag_FIELD_as_stale {α : Type} (st : Settings) (arg : Option Bool)
    (commit : Bool) (s : RecordState α) : OpResult α (Kwargs α) :=
  let ar := resolveAndRecalculate arg st
  let already := s.db.flag
  let s1 : RecordState α :=
    if already then s else ⟨⟨s.mem.cached, true, s.mem.exp⟩, s.db⟩
  let kw : Kwargs α := if already then emptyKwargs else kwFlag true
  if commit then
    ⟨Except.ok kw, ⟨s1.mem, s1.db.applyKwargs kw⟩,
      Event.dbUpdate kw :: (if ar then [Event.asyncDispatch] else [])⟩
  else
    ⟨Except.ok kw, s1, []⟩

/-- Embedding of _expire_FIELD_after(self, field, expiration).  Resolves the
expiration argument (falling back to the default setting, raising when
absent), converts a relative offset against the current time, assigns the
in-memory expiration slot and issues a single-field UPDATE of it. -/
def expire_FIELD_after {α : Type} (st : Settings) (expiration : Option Expiration)
    (tnow : Int) (s : RecordState α) : OpResult α Unit :=
  match pyOrDefaultExpiration expiration st with
  | .error e => ⟨Except.error e, s, []⟩
  | .ok chosen =>
    let resolved := resolveExpiration tnow chosen
    ⟨Except.ok (),
      ⟨⟨s.mem.cached, s.mem.flag, resolved⟩, s.db.applyKwargs (kwExp resolved)⟩,
      [Event.dbUpdate (kwExp resolved)]⟩

/-- Embedding of _recalculate_FIELD(self, field, expiration, commit).  The
calculation method is passed as its outcome calcM (a fresh value or a raised
exception).  With commit, the flag is first persisted false; then the
calculation runs; the value and cleared flag are assigned in memory; kwargs
collects the cached value, the flag only when not committing, and a new
expiration when temporal triggers are on and the current one is null or
past; with commit the kwargs are persisted, otherwise returned. -/
def recalculate_FIELD {α : Type} (st : Settings) (f : Field)
    (calcM : Except Err α) (tnow : Int) (expiration : Option Expiration)
    (commit : Bool) (s : RecordState α) : OpResult α (Option (Kwargs α)) :=
  let s1 : RecordState α :=
    if commit then ⟨s.mem, s.db.applyKwargs (kwFlag false)⟩ else s
  let evs1 : List (Event α) :=
    if commit then [Event.dbUpdate (kwFlag false)] else []
  match calcM with
  | .error e => ⟨Except.error e, s1, evs1 ++ [Event.calcCall]⟩
  | .ok val =>
    let s2 : RecordState α := ⟨⟨val, false, s1.mem.exp⟩, s1.db⟩
    let evs2 := evs1 ++ [Event.calcCall]
    let kw0 : Kwargs α :=
      ⟨some val, if commit then none else some false, none⟩
    if f.temporal_triggers then
      if expStale tnow s2.mem.exp then
        match pyOrDefaultExpiration expiration st with
        | .error e => ⟨Except.error e, s2, evs2⟩
        | .ok chosen =>
          let resolved := resolveExpiration tnow chosen
          let s3 : RecordState α := ⟨⟨s2.mem.cached, s2.mem.flag, resolved⟩, s2.db⟩
          let kw : Kwargs α := ⟨kw0.cached, kw0.flag, some resolved⟩
          if commit then
            ⟨Except.ok none, ⟨s3.mem, s3.db.applyKwargs kw⟩,
              evs2 ++ [Event.dbUpdate kw]⟩
          else
            ⟨Except.ok (some kw), s3, evs2⟩
      else
        if commit then
          ⟨Except.ok none, ⟨s2.mem, s2.db.applyKwargs kw0⟩,
            evs2 ++ [Event.dbUpdate kw0]⟩
        else
          ⟨Except.ok (some kw0), s2, evs2⟩
    else
      if commit then
        ⟨Except.ok none, ⟨s2.mem, s2.db.applyKwargs kw0⟩,
          evs2 ++ [Event.dbUpdate kw0]⟩
      else
        ⟨Except.ok (some kw0), s2, evs2⟩

/-- Embedding of _get_FIELD(self, field): reads the cached value and the
flag from the in-memory instance, folds in the temporal trigger, and when
the effective flag is true recalculates with commit and re-reads the cached
value. -/
def get_FIELD {α : Type} (st : Settings) (f : Field) (calcM : Except Err α)
    (tnow : Int) (s : RecordState α) : OpResult α α :=
  let flag :=
    if f.temporal_triggers then s.mem.flag || expPast tnow s.mem.exp
    else s.mem.flag
  if flag then
    let r := recalculate_FIELD st f calcM tnow none true s
    match r.ret with
    | .error e => ⟨Except.error e, r.state, r.events⟩
    | .ok _ => ⟨Except.ok r.state.mem.cached, r.state, r.events⟩
  else
    ⟨Except.ok s.mem.cached, s, []⟩

/-- Embedding of CachedFieldMixin.init relevant to temporal triggers:
self.temporal_triggers = temporal_triggers or getattr(settings,
CACHED_FIELD_DEFAULT_EXPIRATION) and self.celery_async_kwargs =
celery_async_kwargs or getattr(settings, CACHED_FIELD_CELERY_ASYNC_KWARGS);
each getattr raises AttributeError when the setting attribute is absent,
and is only reached when the corresponding argument is falsy. -/
def mixinInit (st : Settings) (temporal_triggers_arg : Bool)
    (celery_arg_truthy : Bool) : Except Err Field :=
  match
    (if temporal_triggers_arg then Except.ok true
     else
       match st.default_expiration with
       | none => Except.error Err.attrError
       | some d => Except.ok (optExpTruthy d)) with
  | .error e => Except.error e
  | .ok tt =>
    if celery_arg_truthy then Except.ok ⟨tt⟩
    else
      match st.celery_async_kwargs with
      | none => Except.error Err.attrError
      | some _ => Except.ok ⟨tt⟩


/-- Applying the empty kwargs dictionary leaves a row unchanged. -/
theorem Slots.applyKwargs_empty {α : Type} (s : Slots α) :
    s.applyKwargs emptyKwargs = s := rfl

/-- C2: when the calculation method raises during a committed recalculation,
the exception propagates, the in-memory slots are untouched, and the only
persisted mutation is the step-1 flag-clearing UPDATE: the database row
keeps its cached value and expiration, with only the flag set false. -/
theorem recalc_failure_persists_only_flag_clear {α : Type} (st : Settings)
    (f : Field) (e : Err) (tnow : Int) (expiration : Option Expiration)
    (s : RecordState α) :
    (recalculate_FIELD st f (Except.error e) tnow expiration true s).ret
      = Except.error e ∧
    (recalculate_FIELD st f (Except.error e) tnow expiration true s).state.mem
      = s.mem ∧
    (recalculate_FIELD st f (Except.error e) tnow expiration true s).state.db
      = ⟨s.db.cached, false, s.db.exp⟩ ∧
    dbUpdates (recalculate_FIELD st f (Except.error e) tnow expiration true s).events
      = [kwFlag false] := by
  simp [recalculate_FIELD, Slots.applyKwargs, kwFlag, dbUpdates]

/-- C5: a committed flag-as-stale with and_recalculate resolving to true
dispatches exactly one async recalculation, for every record state (even
when the flag was already true and the UPDATE kwargs are empty); with
commit false or and_recalculate resolving to false, no dispatch occurs. -/
theorem flag_as_stale_async_dispatch_count {α : Type} (st : Settings)
    (arg : Option Bool) (commit : Bool) (s : RecordState α) :
    countAsync (flag_FIELD_as_stale st arg commit s).events
      = if commit && resolveAndRecalculate arg st then 1 else 0 := by
  cases commit <;> cases h : resolveAndRecalculate arg st <;>
    cases hd : s.db.flag <;>
      simp [flag_FIELD_as_stale, countAsync, h, hd]

/-- C6: flagging as stale twice in a row with and_recalculate false is
idempotent: the second call finds the freshly-read database flag already
true, returns an empty change set, changes nothing, and the flag stays
true. -/
theorem flag_as_stale_idempotent {α : Type} (st : Settings) (s : RecordState α) :
    (flag_FIELD_as_stale st (some false) true
        (flag_FIELD_as_stale st (some false) true s).state).ret
      = Except.ok emptyKwargs ∧
    (flag_FIELD_as_stale st (some false) true
        (flag_FIELD_as_stale st (some false) true s).state).state
      = (flag_FIELD_as_stale st (some false) true s).state ∧
    (flag_FIELD_as_stale st (some false) true s).state.db.flag = true := by
  cases hd : s.db.flag <;>
    simp [flag_FIELD_as_stale, resolveAndRecalculate, emptyKwargs, kwFlag,
      Slots.applyKwargs, hd]

/-- C10: when the in-memory flag is false and, with temporal triggers on,
the expiration slot is null or not strictly in the past, a read returns the
cached value as is (even a null cache), invokes nothing and persists
nothing. -/
theorem read_fresh_returns_cached_without_effects {α : Type} (st : Settings)
    (f : Field) (calcM : Except Err α) (tnow : Int) (s : RecordState α)
    (hflag : s.mem.flag = false)
    (hfresh : f.temporal_triggers = true → expPast tnow s.mem.exp = false) :
    (get_FIELD st f calcM tnow s).ret = Except.ok s.mem.cached ∧
    (get_FIELD st f calcM tnow s).state = s ∧
    (get_FIELD st f calcM tnow s).events = [] := by
  cases htt : f.temporal_triggers
  · simp [get_FIELD, htt, hflag]
  · simp [get_FIELD, htt, hflag, hfresh htt]

/-- Witness for C10 at a concrete input: value type Option Nat with a null
cached value, temporal triggers on, expiration in the future. -/
theorem read_fresh_returns_cached_without_effects_witness :
    (get_FIELD (Settings.mk none none none) (Field.mk true)
        (Except.ok (some 1)) 3
        (RecordState.mk (Slots.mk (none : Option Nat) false (some 5))
          (Slots.mk none false (some 5)))).ret = Except.ok none ∧
    (get_FIELD (Settings.mk none none none) (Field.mk true)
        (Except.ok (some 1)) 3
        (RecordState.mk (Slots.mk (none : Option Nat) false (some 5))
          (Slots.mk none false (some 5)))).state
      = RecordState.mk (Slots.mk none false (some 5))
          (Slots.mk none false (some 5)) ∧
    (get_FIELD (Settings.mk none none none) (Field.mk true)
        (Except.ok (some 1)) 3
        (RecordState.mk (Slots.mk (none : Option Nat) false (some 5))
          (Slots.mk none false (some 5)))).events = [] :=
  read_fresh_returns_cached_without_effects _ _ _ _ _ rfl (fun _ => rfl)

/-- C1: when the in-memory flag is true and the calculation method returns
V, a read returns V, clears the flag both in memory and in the database
row, and invokes the calculation method exactly once (assuming the default
expiration setting is present whenever temporal triggers are on, so that
no AttributeError interrupts the read). -/
theorem read_stale_recalculates_once {α : Type} (st : Settings) (f : Field)
    (V : α) (tnow : Int) (s : RecordState α)
    (hflag : s.mem.flag = true)
    (hdef : f.temporal_triggers = true → st.default_expiration.isSome) :
    (get_FIELD st f (Except.ok V) tnow s).ret = Except.ok V ∧
    (get_FIELD st f (Except.ok V) tnow s).state.mem.flag = false ∧
    (get_FIELD st f (Except.ok V) tnow s).state.db.flag = false ∧
    countCalc (get_FIELD st f (Except.ok V) tnow s).events = 1 := by
  cases htt : f.temporal_triggers
  · simp [get_FIELD, recalculate_FIELD, htt, hflag, countCalc,
      Slots.applyKwargs, kwFlag]
  · obtain ⟨d, hd⟩ := Option.isSome_iff_exists.mp (hdef htt)
    by_cases hstale : expStale tnow s.mem.exp = true
    · simp [get_FIELD, recalculate_FIELD, htt, hflag, hstale, countCalc,
        pyOrDefaultExpiration, optExpTruthy, hd, Slots.applyKwargs, kwFlag]
    · simp [get_FIELD, recalculate_FIELD, htt, hflag, hstale, countCalc,
        Slots.applyKwargs, kwFlag]

/-- Witness for C1 at a concrete input: flag set, temporal triggers off,
calculation returning 42. -/
theorem read_stale_recalculates_once_witness :
    (get_FIELD (Settings.mk none none none) (Field.mk false)
        (Except.ok (42 : Nat)) 0
        (RecordState.mk (Slots.mk 7 true none) (Slots.mk 7 true none))).ret
      = Except.ok 42 ∧
    (get_FIELD (Settings.mk none none none) (Field.mk false)
        (Except.ok (42 : Nat)) 0
        (RecordState.mk (Slots.mk 7 true none) (Slots.mk 7 true none))).state.mem.flag
      = false ∧
    (get_FIELD (Settings.mk none none none) (Field.mk false)
        (Except.ok (42 : Nat)) 0
        (RecordState.mk (Slots.mk 7 true none) (Slots.mk 7 true none))).state.db.flag
      = false ∧
    countCalc (get_FIELD (Settings.mk none none none) (Field.mk false)
        (Except.ok (42 : Nat)) 0
        (RecordState.mk (Slots.mk 7 true none) (Slots.mk 7 true none))).events
      = 1 :=
  read_stale_recalculates_once _ _ _ _ _ rfl (fun h => by simp at h)

/-- C3: an uncommitted recalculation returns the pending change set with
the new cached value, the flag set false, and the new expiration exactly
when temporal triggers are on and the stored expiration is null or past,
and issues no UPDATE; a committed recalculation issues the optimistic
flag-clearing UPDATE followed by a final UPDATE that omits the flag field.
The hypothesis fixes chosen as the resolution of the expiration argument
against the default setting. -/
theorem recalc_commit_vs_uncommitted {α : Type} (st : Settings) (f : Field)
    (V : α) (tnow : Int) (expiration : Option Expiration) (s : RecordState α)
    (chosen : Option Expiration)
    (hch : pyOrDefaultExpiration expiration st = Except.ok chosen) :
    (recalculate_FIELD st f (Except.ok V) tnow expiration false s).ret
      = Except.ok (some (Kwargs.mk (some V) (some false)
          (if f.temporal_triggers && expStale tnow s.mem.exp
           then some (resolveExpiration tnow chosen) else none))) ∧
    dbUpdates (recalculate_FIELD st f (Except.ok V) tnow expiration false s).events
      = [] ∧
    dbUpdates (recalculate_FIELD st f (Except.ok V) tnow expiration true s).events
      = [kwFlag false,
         Kwargs.mk (some V) none
           (if f.temporal_triggers && expStale tnow s.mem.exp
            then some (resolveExpiration tnow chosen) else none)] := by
  cases htt : f.temporal_triggers <;>
    by_cases hstale : expStale tnow s.mem.exp = true <;>
      simp [recalculate_FIELD, htt, hstale, hch, dbUpdates, kwFlag]

/-- Witness for C3 at a concrete input: temporal triggers on, null stored
expiration, no explicit expiration argument, default policy of 10 ticks. -/
theorem recalc_commit_vs_uncommitted_witness :
    (recalculate_FIELD (Settings.mk (some (some (Expiration.relative 10))) none none)
        (Field.mk true) (Except.ok (5 : Nat)) 100 none false
        (RecordState.mk (Slots.mk 0 true none) (Slots.mk 0 true none))).ret
      = Except.ok (some (Kwargs.mk (some 5) (some false)
          (if (Field.mk true).temporal_triggers && expStale 100 (none : Option Int)
           then some (resolveExpiration 100 (some (Expiration.relative 10)))
           else none))) ∧
    dbUpdates (recalculate_FIELD
        (Settings.mk (some (some (Expiration.relative 10))) none none)
        (Field.mk true) (Except.ok (5 : Nat)) 100 none false
        (RecordState.mk (Slots.mk 0 true none) (Slots.mk 0 true none))).events
      = [] ∧
    dbUpdates (recalculate_FIELD
        (Settings.mk (some (some (Expiration.relative 10))) none none)
        (Field.mk true) (Except.ok (5 : Nat)) 100 none true
        (RecordState.mk (Slots.mk 0 true none) (Slots.mk 0 true none))).events
      = [kwFlag false,
         Kwargs.mk (some 5) none
           (if (Field.mk true).temporal_triggers && expStale 100 (none : Option Int)
            then some (resolveExpiration 100 (some (Expiration.relative 10)))
            else none)] :=
  recalc_commit_vs_uncommitted _ _ _ _ _ _ _ rfl

/-- C7: during a committed recalculation with temporal triggers on, when
the stored expiration is null or past, the new expiration is the explicit
argument (when given) or else the default policy, resolved against the
current time, assigned in memory and included in the final UPDATE; when the
stored expiration is in the future, both in-memory and database expiration
slots are untouched and the final UPDATE omits the expiration field. -/
theorem recalc_expiration_policy {α : Type} (st : Settings) (f : Field)
    (V : α) (tnow : Int) (expiration : Option Expiration) (s : RecordState α)
    (htt : f.temporal_triggers = true)
    (d : Option Expiration) (hd : st.default_expiration = some d)
    (hexp : expiration = none ∨ optExpTruthy expiration = true) :
    (expStale tnow s.mem.exp = true →
      (recalculate_FIELD st f (Except.ok V) tnow expiration true s).state.mem.exp
        = resolveExpiration tnow (if expiration.isSome then expiration else d) ∧
      (recalculate_FIELD st f (Except.ok V) tnow expiration true s).state.db.exp
        = resolveExpiration tnow (if expiration.isSome then expiration else d) ∧
      dbUpdates (recalculate_FIELD st f (Except.ok V) tnow expiration true s).events
        = [kwFlag false, Kwargs.mk (some V) none
            (some (resolveExpiration tnow
              (if expiration.isSome then expiration else d)))]) ∧
    (expStale tnow s.mem.exp = false →
      (recalculate_FIELD st f (Except.ok V) tnow expiration true s).state.mem.exp
        = s.mem.exp ∧
      (recalculate_FIELD st f (Except.ok V) tnow expiration true s).state.db.exp
        = s.db.exp ∧
      dbUpdates (recalculate_FIELD st f (Except.ok V) tnow expiration true s).events
        = [kwFlag false, Kwargs.mk (some V) none none]) := by
  have hch : pyOrDefaultExpiration expiration st
      = Except.ok (if expiration.isSome then expiration else d) := by
    rcases hexp with h | h
    · simp [pyOrDefaultExpiration, h, optExpTruthy, hd]
    · simp [pyOrDefaultExpiration, h]
      cases expiration with
      | none => simp [optExpTruthy] at h
      | some e => simp
  constructor
  · intro hstale
    simp [recalculate_FIELD, htt, hstale, hch, dbUpdates, kwFlag,
      Slots.applyKwargs]
  · intro hstale
    simp [recalculate_FIELD, htt, hstale, dbUpdates, kwFlag,
      Slots.applyKwargs]

/-- Witness for C7 at a concrete input: explicit absolute expiration 50,
stored expiration 3 already past at time 7. -/
theorem recalc_expiration_policy_witness :
    (expStale 7 (some (3 : Int)) = true →
      (recalculate_FIELD (Settings.mk (some none) none none)
          (Field.mk true) (Except.ok (1 : Nat)) 7
          (some (Expiration.absolute 50)) true
          (RecordState.mk (Slots.mk 0 true (some 3))
            (Slots.mk 0 true (some 3)))).state.mem.exp
        = resolveExpiration 7
            (if (some (Expiration.absolute 50)).isSome
             then some (Expiration.absolute 50) else none) ∧
      (recalculate_FIELD (Settings.mk (some none) none none)
          (Field.mk true) (Except.ok (1 : Nat)) 7
          (some (Expiration.absolute 50)) true
          (RecordState.mk (Slots.mk 0 true (some 3))
            (Slots.mk 0 true (some 3)))).state.db.exp
        = resolveExpiration 7
            (if (some (Expiration.absolute 50)).isSome
             then some (Expiration.absolute 50) else none) ∧
      dbUpdates (recalculate_FIELD (Settings.mk (some none) none none)
          (Field.mk true) (Except.ok (1 : Nat)) 7
          (some (Expiration.absolute 50)) true
          (RecordState.mk (Slots.mk 0 true (some 3))
            (Slots.mk 0 true (some 3)))).events
        = [kwFlag false, Kwargs.mk (some 1) none
            (some (resolveExpiration 7
              (if (some (Expiration.absolute 50)).isSome
               then some (Expiration.absolute 50) else none)))]) ∧
    (expStale 7 (some (3 : Int)) = false →
      (recalculate_FIELD (Settings.mk (some none) none none)
          (Field.mk true) (Except.ok (1 : Nat)) 7
          (some (Expiration.absolute 50)) true
          (RecordState.mk (Slots.mk 0 true (some 3))
            (Slots.mk 0 true (some 3)))).state.mem.exp
        = some 3 ∧
      (recalculate_FIELD (Settings.mk (some none) none none)
          (Field.mk true) (Except.ok (1 : Nat)) 7
          (some (Expiration.absolute 50)) true
          (RecordState.mk (Slots.mk 0 true (some 3))
            (Slots.mk 0 true (some 3)))).state.db.exp
        = some 3 ∧
      dbUpdates (recalculate_FIELD (Settings.mk (some none) none none)
          (Field.mk true) (Except.ok (1 : Nat)) 7
          (some (Expiration.absolute 50)) true
          (RecordState.mk (Slots.mk 0 true (some 3))
            (Slots.mk 0 true (some 3)))).events
        = [kwFlag false, Kwargs.mk (some 1) none none]) :=
  recalc_expiration_policy (Settings.mk (some none) none none)
    (Field.mk true) (1 : Nat) 7 (some (Expiration.absolute 50))
    (RecordState.mk (Slots.mk 0 true (some 3)) (Slots.mk 0 true (some 3)))
    rfl none rfl (Or.inr (by decide))

/-- C4: with the flag false, temporal triggers on, and a non-null
expiration strictly in the past, a read is indistinguishable from the same
read with the flag set true: identical result, state and events, with one
calculation invocation returning the fresh value, and no UPDATE of this
read writes flag=true. -/
theorem temporal_trigger_read_equivalence {α : Type} (st : Settings)
    (f : Field) (V : α) (tnow t : Int) (s : RecordState α)
    (hflag : s.mem.flag = false) (htt : f.temporal_triggers = true)
    (hexp : s.mem.exp = some t) (hpast : t < tnow)
    (hdef : st.default_expiration.isSome) :
    get_FIELD st f (Except.ok V) tnow s
      = get_FIELD st f (Except.ok V) tnow
          (RecordState.mk (Slots.mk s.mem.cached true s.mem.exp) s.db) ∧
    (get_FIELD st f (Except.ok V) tnow s).ret = Except.ok V ∧
    countCalc (get_FIELD st f (Except.ok V) tnow s).events = 1 ∧
    ∀ kw ∈ dbUpdates (get_FIELD st f (Except.ok V) tnow s).events,
      kw.flag ≠ some true := by
  obtain ⟨dv, hdv⟩ := Option.isSome_iff_exists.mp hdef
  have hp : expPast tnow s.mem.exp = true := by
    simp [expPast, hexp, hpast]
  have hs : expStale tnow s.mem.exp = true := by
    simp [expStale, hexp, hpast]
  by_cases hstale : expStale tnow s.mem.exp = true
  · simp [get_FIELD, recalculate_FIELD, htt, hflag, hp, hexp, hpast,
      pyOrDefaultExpiration, optExpTruthy, hdv, countCalc, dbUpdates,
      kwFlag, Slots.applyKwargs, expPast, expStale]
  · exact absurd hs hstale

/-- Witness for C4 at a concrete input: expiration 2 already past at time
9, flag false, calculation returning 11. -/
theorem temporal_trigger_read_equivalence_witness :
    get_FIELD (Settings.mk (some none) none none) (Field.mk true)
        (Except.ok (11 : Nat)) 9
        (RecordState.mk (Slots.mk 4 false (some 2)) (Slots.mk 4 false (some 2)))
      = get_FIELD (Settings.mk (some none) none none) (Field.mk true)
          (Except.ok (11 : Nat)) 9
          (RecordState.mk (Slots.mk 4 true (some 2))
            (Slots.mk 4 false (some 2))) ∧
    (get_FIELD (Settings.mk (some none) none none) (Field.mk true)
        (Except.ok (11 : Nat)) 9
        (RecordState.mk (Slots.mk 4 false (some 2))
          (Slots.mk 4 false (some 2)))).ret = Except.ok 11 ∧
    countCalc (get_FIELD (Settings.mk (some none) none none) (Field.mk true)
        (Except.ok (11 : Nat)) 9
        (RecordState.mk (Slots.mk 4 false (some 2))
          (Slots.mk 4 false (some 2)))).events = 1 ∧
    ∀ kw ∈ dbUpdates (get_FIELD (Settings.mk (some none) none none)
        (Field.mk true) (Except.ok (11 : Nat)) 9
        (RecordState.mk (Slots.mk 4 false (some 2))
          (Slots.mk 4 false (some 2)))).events,
      kw.flag ≠ some true :=
  temporal_trigger_read_equivalence _ _ _ _ 2 _ rfl rfl rfl (by decide) rfl

/-- C9: expire-after resolves the explicit expiration or else the default
policy against the current time, assigns the in-memory expiration slot,
and issues exactly one UPDATE naming only the expiration slot; the cached
value and the flag are unchanged in memory and in the database row. -/
theorem expire_after_single_field_update {α : Type} (st : Settings)
    (expiration : Option Expiration) (tnow : Int) (s : RecordState α)
    (chosen : Option Expiration)
    (hch : pyOrDefaultExpiration expiration st = Except.ok chosen) :
    (expire_FIELD_after st expiration tnow s).ret = Except.ok () ∧
    (expire_FIELD_after st expiration tnow s).state.mem
      = Slots.mk s.mem.cached s.mem.flag (resolveExpiration tnow chosen) ∧
    (expire_FIELD_after st expiration tnow s).state.db
      = Slots.mk s.db.cached s.db.flag (resolveExpiration tnow chosen) ∧
    (expire_FIELD_after st expiration tnow s).events
      = [Event.dbUpdate (kwExp (resolveExpiration tnow chosen))] := by
  simp [expire_FIELD_after, hch, Slots.applyKwargs, kwExp]

/-- Witness for C9 at a concrete input: relative offset 4 at time 20. -/
theorem expire_after_single_field_update_witness :
    (expire_FIELD_after (Settings.mk none none none)
        (some (Expiration.relative 4)) 20
        (RecordState.mk (Slots.mk (8 : Nat) true none)
          (Slots.mk 8 true none))).ret = Except.ok () ∧
    (expire_FIELD_after (Settings.mk none none none)
        (some (Expiration.relative 4)) 20
        (RecordState.mk (Slots.mk (8 : Nat) true none)
          (Slots.mk 8 true none))).state.mem
      = Slots.mk 8 true (resolveExpiration 20 (some (Expiration.relative 4))) ∧
    (expire_FIELD_after (Settings.mk none none none)
        (some (Expiration.relative 4)) 20
        (RecordState.mk (Slots.mk (8 : Nat) true none)
          (Slots.mk 8 true none))).state.db
      = Slots.mk 8 true (resolveExpiration 20 (some (Expiration.relative 4))) ∧
    (expire_FIELD_after (Settings.mk none none none)
        (some (Expiration.relative 4)) 20
        (RecordState.mk (Slots.mk (8 : Nat) true none)
          (Slots.mk 8 true none))).events
      = [Event.dbUpdate (kwExp (resolveExpiration 20
          (some (Expiration.relative 4))))] :=
  expire_after_single_field_update _ _ _ _ _ rfl

/-- Counterexample to C8 as stated: with no process-wide default
expiration configured (the settings attribute absent) and no explicit
temporal-triggers request, construction does not succeed with triggers
disabled; the bare getattr raises AttributeError. -/
theorem mixin_init_absent_default_raises :
    mixinInit (Settings.mk none none (some (some ()))) false true
      = Except.error Err.attrError := rfl

/-- C8 amended: without an explicit temporal-triggers request, and with
the default-expiration setting attribute present with value d (and the
celery kwargs setting resolvable), construction succeeds and temporal
triggers are enabled exactly when d is truthy (disabled when d is None or
a zero offset); when the setting attribute is absent, construction raises
AttributeError instead. -/
theorem mixin_init_temporal_fallback (st : Settings) (d : Option Expiration)
    (hd : st.default_expiration = some d)
    (hc : st.celery_async_kwargs.isSome) :
    mixinInit st false false = Except.ok (Field.mk (optExpTruthy d)) := by
  obtain ⟨c, hcv⟩ := Option.isSome_iff_exists.mp hc
  simp [mixinInit, hd, hcv]

/-- Witness for the amended C8 at a concrete input: default expiration
configured as None, celery kwargs configured, yielding triggers off. -/
theorem mixin_init_temporal_fallback_witness :
    mixinInit (Settings.mk (some none) none (some none)) false false
      = Except.ok (Field.mk (optExpTruthy none)) :=
  mixin_init_temporal_fallback _ none rfl rfl

end CachedField
